import Mathlib

/-!
Verification of the autogen-devsync core against its specification.

The development shallowly embeds the two source files the claims are about:
`autogen_setup.py` (the `LGTMTermination` predicate, `load_config`,
`make_model_client_pydantic`) and `streamlit_app.py` (`run_autogen_stream`,
the run button handler and the log tab). Python objects probed by
`getattr`/`hasattr` become structures of optional fields; `sys.exit(1)` and
raised exceptions become `Except` values; external calls (file reading, YAML
parsing, pydantic validation, the event stream) are passed in as values.
-/

/-! ## `autogen_setup.py`: the LGTM termination predicate -/

/-- Python's regex whitespace class `\s` for str patterns, i.e. the exact
set of code points a single `\s` accepts under `re.fullmatch` (Python's
Unicode whitespace predicate): tab through carriage return U+0009-U+000D,
the separators U+001C-U+001F, space, next line U+0085, no-break space
U+00A0, Ogham space mark U+1680, the space separators U+2000-U+200A, line
and paragraph separators U+2028 and U+2029, narrow no-break space U+202F,
medium mathematical space U+205F, and ideographic space U+3000. -/
def isPySpace (c : Char) : Bool :=
  c == ' ' || c == '\t' || c == '\n' || c == '\r' || c == '\x0b' || c == '\x0c'
    || c == '\x1c' || c == '\x1d' || c == '\x1e' || c == '\x1f'
    || c == '\u0085' || c == '\u00a0' || c == '\u1680'
    || (0x2000 ≤ c.toNat && c.toNat ≤ 0x200a)
    || c == '\u2028' || c == '\u2029' || c == '\u202f' || c == '\u205f'
    || c == '\u3000'

/-- The Boolean value of `re.fullmatch` of optional whitespace, the letters
of the token "LGTM" in either case, and optional whitespace, against `s`
(the source's pattern with `re.IGNORECASE`). -/
def lgtmMatch (s : String) : Bool :=
  match s.data.dropWhile isPySpace with
  | a :: b :: c :: d :: rest =>
      a.toLower == 'l' && b.toLower == 'g' && c.toLower == 't' && d.toLower == 'm'
        && rest.all isPySpace
  | _ => false

/-- A Python attribute value as the predicate distinguishes message content:
a string, or a non-string object (only its type name is ever read). -/
inductive PyContent where
  | str (s : String)
  | nonStr (typeName : String)
deriving DecidableEq

/-- A transcript message as `LGTMTermination.__call__` probes it: optional
`name` and `source` attributes (`none` = the attribute is absent) and an
optional `content` attribute (`none` = absent or `None`). -/
structure Msg where
  name : Option String := none
  source : Option String := none
  content : Option PyContent := none
deriving DecidableEq

/-- The identity extraction
`getattr(last_msg, "name", getattr(last_msg, "source", None))`. -/
def Msg.sourceName (m : Msg) : Option String :=
  m.name.orElse fun _ => m.source

/-- The `StopMessage` value the predicate returns (its `content` and
`source` fields; the `type` keyword repeats the class name). -/
structure StopMessage where
  content : String
  source : String
deriving DecidableEq

/-- The state of one `LGTMTermination` instance: the watched agent name and
the `_terminated` flag. -/
structure LGTMTermination where
  agent_name : String
  terminated : Bool
deriving DecidableEq

/-- `LGTMTermination.__init__`: the flag starts out `False`. -/
def LGTMTermination.init (agent_name : String) : LGTMTermination :=
  { agent_name := agent_name, terminated := false }

/-- `LGTMTermination.__call__`: the optional `StopMessage` returned, paired
with the instance state after the call. -/
def LGTMTermination.call (t : LGTMTermination) (messages : List Msg) :
    Option StopMessage × LGTMTermination :=
  if t.terminated then (none, t)
  else
    match messages.getLast? with
    | none => (none, t)
    | some last_msg =>
      let source_name := last_msg.sourceName
      let msg_content := last_msg.content
      if source_name == some t.agent_name
          && (match msg_content with
              | some (PyContent.str s) => lgtmMatch s
              | _ => false) then
        (some { content := "LGTM received from " ++ t.agent_name ++ ".",
                source := "LGTMTermination" },
         { t with terminated := true })
      else
        (none, t)

/-- `LGTMTermination.reset`: clears the flag unconditionally. -/
def LGTMTermination.reset (t : LGTMTermination) : LGTMTermination :=
  { t with terminated := false }

/-- A sequence of evaluation calls on one instance, threading the state and
collecting every `StopMessage` produced along the way. -/
def runCalls : LGTMTermination → List (List Msg) → List StopMessage × LGTMTermination
  | t, [] => ([], t)
  | t, ms :: rest =>
    let r := t.call ms
    let out := runCalls r.2 rest
    (r.1.toList ++ out.1, out.2)

/-- The Boolean trigger condition `__call__` tests on the last message. -/
def lastTriggers (agentName : String) (msgs : List Msg) : Bool :=
  match msgs.getLast? with
  | none => false
  | some m =>
      (m.sourceName == some agentName) &&
        (match m.content with
         | some (PyContent.str s) => lgtmMatch s
         | _ => false)

theorem call_eq (t : LGTMTermination) (msgs : List Msg) :
    t.call msgs =
      if t.terminated then (none, t)
      else if lastTriggers t.agent_name msgs then
        (some { content := "LGTM received from " ++ t.agent_name ++ ".",
                source := "LGTMTermination" },
         { t with terminated := true })
      else (none, t) := by
  unfold LGTMTermination.call lastTriggers
  by_cases ht : t.terminated
  · simp [ht]
  · simp only [ht]
    cases msgs.getLast? with
    | none => simp
    | some m => simp

theorem call_of_terminated (t : LGTMTermination) (msgs : List Msg)
    (h : t.terminated = true) : t.call msgs = (none, t) := by
  rw [call_eq, h]
  simp

theorem call_fst_none_snd (t : LGTMTermination) (msgs : List Msg)
    (h : (t.call msgs).1 = none) : (t.call msgs).2 = t := by
  rw [call_eq] at *
  by_cases ht : t.terminated
  · simp [ht]
  · by_cases htr : lastTriggers t.agent_name msgs
    · simp [ht, htr] at h
    · simp [ht, htr]

theorem call_fst_some_terminated (t : LGTMTermination) (msgs : List Msg)
    (h : (t.call msgs).1.isSome = true) : (t.call msgs).2.terminated = true := by
  rw [call_eq] at *
  by_cases ht : t.terminated
  · simp [ht] at h
  · by_cases htr : lastTriggers t.agent_name msgs
    · simp [ht, htr]
    · simp [ht, htr] at h

theorem runCalls_of_terminated (t : LGTMTermination) (mss : List (List Msg))
    (h : t.terminated = true) : runCalls t mss = ([], t) := by
  induction mss with
  | nil => rfl
  | cons ms rest ih =>
      unfold runCalls
      rw [call_of_terminated t ms h]
      simp [ih]

theorem runCalls_length_le_one (t : LGTMTermination) (mss : List (List Msg)) :
    (runCalls t mss).1.length ≤ 1 := by
  induction mss generalizing t with
  | nil => simp [runCalls]
  | cons ms rest ih =>
      unfold runCalls
      cases hr : (t.call ms).1 with
      | none =>
          have h2 := call_fst_none_snd t ms hr
          simp only [hr, Option.toList_none, List.nil_append]
          exact ih _
      | some sm =>
          have hsome : (t.call ms).1.isSome = true := by simp [hr]
          have hterm := call_fst_some_terminated t ms hsome
          simp only [hr, Option.toList_some]
          rw [runCalls_of_terminated _ rest hterm]
          simp

theorem lastTriggers_iff (a : String) (msgs : List Msg) :
    lastTriggers a msgs = true ↔
      ∃ m, msgs.getLast? = some m ∧ m.sourceName = some a ∧
        ∃ s, m.content = some (PyContent.str s) ∧ lgtmMatch s = true := by
  unfold lastTriggers
  cases hm : msgs.getLast? with
  | none => simp
  | some m =>
      simp only [Bool.and_eq_true, beq_iff_eq]
      constructor
      · rintro ⟨h1, h2⟩
        refine ⟨m, rfl, h1, ?_⟩
        cases hc : m.content with
        | none => rw [hc] at h2; simp at h2
        | some pc =>
            cases pc with
            | str s => rw [hc] at h2; exact ⟨s, rfl, by simpa using h2⟩
            | nonStr tn => rw [hc] at h2; simp at h2
      · rintro ⟨m2, hm2, hsrc, s, hc, hl⟩
        have hmm : m2 = m := by
          injection hm2 with h
          exact h.symm
        subst hmm
        exact ⟨hsrc, by rw [hc]; simpa using hl⟩

/-- Claim C1: evaluation returns a `StopMessage` iff the instance is not yet
terminated, the transcript is non-empty, the last message's extracted
identity (`name`, else `source`, else none) equals the watched agent name,
and its content is a string fully matching whitespace-padded "LGTM"
case-insensitively; in every other case it returns no stop and leaves the
state unchanged. The six sample contents behave exactly as the claim lists:
"LGTM!", "lgtm now" and "  lgtm  extra" never match, "LGTM", "lgtm" and
"  LgTm  " always match; the token may also be padded by non-ASCII
whitespace such as NBSP or the line separator, which Python's `\s`
accepts. -/
theorem lgtm_call_iff (t : LGTMTermination) (msgs : List Msg) :
    ((t.call msgs).1.isSome = true ↔
      (t.terminated = false ∧ ∃ m, msgs.getLast? = some m ∧
        m.sourceName = some t.agent_name ∧
        ∃ s, m.content = some (PyContent.str s) ∧ lgtmMatch s = true)) ∧
    (t.call msgs).2 =
      (if (t.call msgs).1.isSome then { t with terminated := true } else t) ∧
    lgtmMatch "LGTM" = true ∧ lgtmMatch "lgtm" = true ∧ lgtmMatch "  LgTm  " = true ∧
    lgtmMatch "LGTM!" = false ∧ lgtmMatch "lgtm now" = false ∧
    lgtmMatch "  lgtm  extra" = false ∧
    lgtmMatch "LGTM\u00a0" = true ∧ lgtmMatch "\u2028\u3000lgtm\x1c" = true := by
  refine ⟨?_, ?_, by decide, by decide, by decide, by decide, by decide, by decide,
    by decide, by decide⟩
  · rw [call_eq]
    by_cases ht : t.terminated
    · simp [ht]
    · by_cases htr : lastTriggers t.agent_name msgs
      · have h1 : t.terminated = false := by simpa using ht
        have h2 := (lastTriggers_iff t.agent_name msgs).mp htr
        simp [htr, h1, h2]
      · have h2 : ¬(∃ m, msgs.getLast? = some m ∧ m.sourceName = some t.agent_name ∧
            ∃ s, m.content = some (PyContent.str s) ∧ lgtmMatch s = true) := by
          intro hx
          exact htr ((lastTriggers_iff t.agent_name msgs).mpr hx)
        simp [ht, htr, h2]
  · rw [call_eq]
    by_cases ht : t.terminated
    · simp [ht]
    · by_cases htr : lastTriggers t.agent_name msgs
      · simp [ht, htr]
      · simp [ht, htr]

/-- Claim C3: the terminated flag is a latch. While it is `true` every call
returns no stop and changes nothing, a whole run of calls emits no
`StopMessage` and keeps the state; and from any starting state at most one
`StopMessage` is produced across any sequence of calls without a reset. -/
theorem lgtm_latch (t : LGTMTermination) (msgs : List Msg) (mss : List (List Msg))
    (h : t.terminated = true) :
    (t.call msgs).1 = none ∧ (t.call msgs).2 = t ∧
    runCalls t mss = ([], t) ∧
    ∀ t2 : LGTMTermination, (runCalls t2 mss).1.length ≤ 1 := by
  refine ⟨?_, ?_, runCalls_of_terminated t mss h, fun t2 => runCalls_length_le_one t2 mss⟩
  · rw [call_of_terminated t msgs h]
  · rw [call_of_terminated t msgs h]

theorem lgtm_latch_witness :
    ((LGTMTermination.mk "review_agent" true).call
        [{ source := some "review_agent", content := some (PyContent.str "LGTM") }]).1 = none ∧
    ((LGTMTermination.mk "review_agent" true).call
        [{ source := some "review_agent", content := some (PyContent.str "LGTM") }]).2
      = LGTMTermination.mk "review_agent" true ∧
    runCalls (LGTMTermination.mk "review_agent" true)
        [[{ source := some "review_agent", content := some (PyContent.str "LGTM") }]]
      = ([], LGTMTermination.mk "review_agent" true) ∧
    ∀ t2 : LGTMTermination,
      (runCalls t2
        [[{ source := some "review_agent", content := some (PyContent.str "LGTM") }]]).1.length ≤ 1 :=
  lgtm_latch (LGTMTermination.mk "review_agent" true)
    [{ source := some "review_agent", content := some (PyContent.str "LGTM") }]
    [[{ source := some "review_agent", content := some (PyContent.str "LGTM") }]] rfl

/-- Claim C6: `reset` yields exactly the state of a freshly constructed
instance with the same watched agent name, so every subsequent behavior
(single calls, whole call sequences, the terminated property) coincides. -/
theorem lgtm_reset_fresh (t : LGTMTermination) :
    t.reset = LGTMTermination.init t.agent_name ∧
    (∀ msgs, t.reset.call msgs = (LGTMTermination.init t.agent_name).call msgs) ∧
    (∀ mss, runCalls t.reset mss = runCalls (LGTMTermination.init t.agent_name) mss) ∧
    t.reset.terminated = (LGTMTermination.init t.agent_name).terminated := by
  have h : t.reset = LGTMTermination.init t.agent_name := by
    cases t
    rfl
  exact ⟨h, fun msgs => by rw [h], fun mss => by rw [h], by rw [h]⟩

/-! ## `streamlit_app.py`: the stream reducer -/

/-- The value of an event's `content` attribute as the reducer distinguishes
it: a Python `str`, `None`, or any other object (carrying its type's
`__name__` and its `str()` rendering). -/
inductive ContentVal where
  | strVal (s : String)
  | noneVal
  | otherVal (typeName : String) (pyStr : String)
deriving DecidableEq

/-- One event of `team.run_stream(...)` as `run_autogen_stream` probes it by
`hasattr`/`getattr`: an optional field is `none` when the attribute is
absent. A present `stop_reason` attribute may itself hold `None` (the inner
`none`). `typeName` is the class `__name__`. -/
structure Event where
  source : Option String := none
  name : Option String := none
  stop_reason : Option (Option String) := none
  content : Option ContentVal := none
  role : Option String := none
  typeName : String := "BaseChatMessage"
deriving DecidableEq

/-- `getattr(message, 'source', getattr(message, 'name', 'System'))`. -/
def sourceNameOf (e : Event) : String :=
  (e.source.orElse fun _ => e.name).getD "System"

/-- Python `x or d` for an optional string `x`: `None` and `""` are falsy. -/
def pyOr (x : Option String) (d : String) : String :=
  match x with
  | some s => if s = "" then d else s
  | none => d

/-- F-string rendering of a possibly-`None` string value. -/
def pyStrOpt (x : Option String) : String := x.getD "None"

/-- Does the character list start with the second list? -/
def startsWithL : List Char → List Char → Bool
  | _, [] => true
  | [], _ :: _ => false
  | h :: hs, n :: ns => h == n && startsWithL hs ns

/-- Python substring containment over character lists: the second list occurs
contiguously in the first. -/
def containsSub : List Char → List Char → Bool
  | [], needle => needle.isEmpty
  | h :: rest, needle => startsWithL (h :: rest) needle || containsSub rest needle

/-- Python `needle in hay` on strings. -/
def strIn (needle hay : String) : Bool := containsSub hay.data needle.data

/-- The log line `run_autogen_stream` builds for one consumed event. The
source's `.replace("<", "<").replace(">", ">")` replaces each character with
itself, so `escaped_content` equals the content string unchanged. -/
def formatLogEntry (e : Event) : String :=
  let source_name := sourceNameOf e
  match e.stop_reason with
  | some msr => "**System:** Task finished. Stop Reason: " ++ pyStrOpt msr
  | none =>
    match e.content with
    | some (ContentVal.strVal s) =>
        let escaped_content := s
        if strIn "```" escaped_content then
          "**" ++ source_name ++ ":**\n```\n" ++ escaped_content ++ "\n```"
        else
          "**" ++ source_name ++ ":**\n" ++ escaped_content
    | some (ContentVal.otherVal tn _) =>
        "**" ++ source_name ++ ":** `(" ++ tn ++ " content)`"
    | some ContentVal.noneVal =>
        "**" ++ source_name ++ ":** `(Role: " ++ pyStrOpt e.role ++ " - Content is None)`"
    | none =>
        "**" ++ source_name ++ ":** `(" ++ e.typeName ++ ")`"

/-- The loop-carried state of `run_autogen_stream`. -/
structure ReducerState where
  log : List String
  lastAgent : Option Event
  prevAgent : Option Event
  stopReason : String
  isTaskResult : Bool
deriving DecidableEq

/-- The local-variable initialization at the top of `run_autogen_stream`. -/
def initialReducerState : ReducerState :=
  { log := [], lastAgent := none, prevAgent := none,
    stopReason := "Unknown", isTaskResult := false }

/-- The fixed non-agent identities `['user', 'System', 'UserProxyAgent']`. -/
def nonAgentSources : List String := ["user", "System", "UserProxyAgent"]

/-- `hasattr(message, 'stop_reason')`: the event is a terminal run result. -/
def isTerminal (e : Event) : Bool := e.stop_reason.isSome

/-- One iteration of the `async for` body of `run_autogen_stream`:
`is_agent_message_with_content` is set exactly when the event is not terminal,
has a `content` attribute (of any value) and its source identity is not one of
the non-agent identities; the log line is appended when non-empty; on a
terminal event the result flag and stop reason are recorded. -/
def stepEvent (st : ReducerState) (e : Event) : ReducerState :=
  let log_entry := formatLogEntry e
  let is_agent_message_with_content :=
    !(isTerminal e) && e.content.isSome && !(nonAgentSources.contains (sourceNameOf e))
  let st1 := if log_entry ≠ "" then { st with log := st.log ++ [log_entry] } else st
  let st2 :=
    if is_agent_message_with_content then
      { st1 with prevAgent := st1.lastAgent, lastAgent := some e }
    else st1
  if isTerminal e then
    { st2 with isTaskResult := true,
               stopReason := pyOr (e.stop_reason.getD none) "Completed" }
  else st2

/-- The `async for` loop over a stream that yields `events` and ends
normally: the loop breaks after the first terminal event. -/
def runLoop : ReducerState → List Event → ReducerState
  | st, [] => st
  | st, e :: rest =>
    let st2 := stepEvent st e
    if isTerminal e then st2 else runLoop st2 rest

/-- A Python exception: its type's `__name__` and its `str()`. -/
structure PyExc where
  excType : String
  msg : String
deriving DecidableEq

/-- The same loop over a stream that raises `ex` after yielding `events`
(`fault = some ex`): the exception propagates out of the loop and the
loop-local state is abandoned with it. -/
def runLoopFallible : ReducerState → List Event → Option PyExc → Except PyExc ReducerState
  | st, [], none => Except.ok st
  | _, [], some ex => Except.error ex
  | st, e :: rest, fault =>
    let st2 := stepEvent st e
    if isTerminal e then Except.ok st2 else runLoopFallible st2 rest fault

/-- `getattr(final_message_to_display, 'source', getattr(..., 'name',
'Unknown'))`. -/
def finalSourceOfMsg (m : Event) : String :=
  (m.source.orElse fun _ => m.name).getD "Unknown"

/-- `str()` of `getattr(final_message_to_display, 'content', '[No content
found in selected message]')`. -/
def finalTextOfMsg (m : Event) : String :=
  match m.content with
  | none => "[No content found in selected message]"
  | some (ContentVal.strVal s) => s
  | some ContentVal.noneVal => "None"
  | some (ContentVal.otherVal _ r) => r

/-- The tuple `run_autogen_stream` returns. -/
structure ReducedResult where
  log : List String
  final_text : String
  final_source : String
  stop_reason : String
deriving DecidableEq

/-- The tail of `run_autogen_stream` after the loop: choose the message to
display and assemble the returned tuple. -/
def finalizeRun (st : ReducerState) : ReducedResult :=
  let lgtm_termination_occurred := strIn "LGTM received" st.stopReason
  let final_message_to_display :=
    if lgtm_termination_occurred && st.prevAgent.isSome then st.prevAgent
    else if st.lastAgent.isSome then st.lastAgent
    else none
  match final_message_to_display with
  | some m =>
      { log := st.log, final_text := finalTextOfMsg m,
        final_source := finalSourceOfMsg m, stop_reason := st.stopReason }
  | none =>
      { log := st.log,
        final_text := "[No agent response recorded before termination]",
        final_source := if st.isTaskResult then "System" else "Unknown",
        stop_reason := st.stopReason }

/-- `run_autogen_stream` over a stream that yields `events` and ends
normally. -/
def run_autogen_stream (events : List Event) : ReducedResult :=
  finalizeRun (runLoop initialReducerState events)

/-- `run_autogen_stream` over a stream that may raise after its yielded
prefix; a raised exception propagates out unchanged (the reducer installs no
handler of its own). -/
def runAutogenStreamFallible (events : List Event) (fault : Option PyExc) :
    Except PyExc ReducedResult :=
  (runLoopFallible initialReducerState events fault).map finalizeRun

/-- The prefix of the stream the loop actually consumes: everything up to and
including the first terminal event. -/
def consumedEvents : List Event → List Event
  | [] => []
  | e :: rest => if isTerminal e then [e] else e :: consumedEvents rest

/-- The session keys the run button handler writes. -/
structure SessionState where
  conversation_log_list : List String
  final_response_text : String
  stop_reason_text : String
  final_source_text : String
  last_run_error : Option String
deriving DecidableEq

/-- The f-string recorded by the handler's `except` branch. -/
def errorMessageOf (ex : PyExc) : String :=
  "An error occurred during the AutoGen run: " ++ ex.excType ++ " - " ++ ex.msg

/-- The run button handler: clears the five session keys, runs the reducer
and stores its result; when the run raises, it records the failure message
instead and the cleared keys keep their cleared values (the host process
continues and still holds a session state). -/
def runButtonHandler (events : List Event) (fault : Option PyExc) : SessionState :=
  let cleared : SessionState :=
    { conversation_log_list := [], final_response_text := "",
      stop_reason_text := "", final_source_text := "", last_run_error := none }
  match runAutogenStreamFallible events fault with
  | Except.ok r =>
      { cleared with conversation_log_list := r.log,
                     final_response_text := r.final_text,
                     stop_reason_text := r.stop_reason,
                     final_source_text := r.final_source }
  | Except.error e =>
      { cleared with last_run_error := some (errorMessageOf e) }

/-- What the log tab (`tab2`) renders. -/
inductive LogDisplay where
  | entries (l : List String)
  | failedWarning (err : String)
  | noLog
  | hidden
deriving DecidableEq

/-- The log tab: shows the stored log entries when any exist, else a failure
warning when the last run failed, else an empty-log notice. -/
def tab2Display (show_logs : Bool) (s : SessionState) : LogDisplay :=
  if show_logs then
    if s.conversation_log_list ≠ [] then LogDisplay.entries s.conversation_log_list
    else
      match s.last_run_error with
      | some err => LogDisplay.failedWarning err
      | none => LogDisplay.noLog
  else LogDisplay.hidden

theorem string_eq_empty_of_data (a : String) (h : a.data = []) : a = "" := by
  cases a with
  | mk l =>
      simp only [String.data] at h
      rw [h]

theorem append_ne_empty_left (a b : String) (h : a ≠ "") : a ++ b ≠ "" := by
  intro hab
  have h2 := congrArg String.data hab
  rw [String.data_append] at h2
  have h3 := List.append_eq_nil.mp (by simpa using h2)
  exact h (string_eq_empty_of_data a h3.1)

theorem formatLogEntry_ne_empty (e : Event) : formatLogEntry e ≠ "" := by
  unfold formatLogEntry
  cases e.stop_reason with
  | some msr => repeat (first | decide | apply append_ne_empty_left)
  | none =>
      cases e.content with
      | none => repeat (first | decide | apply append_ne_empty_left)
      | some cv =>
          cases cv with
          | strVal s =>
              by_cases hb : strIn "```" s = true
              · simp only [hb, if_true]
                repeat (first | decide | apply append_ne_empty_left)
              · simp only [hb, if_false]
                repeat (first | decide | apply append_ne_empty_left)
          | noneVal => repeat (first | decide | apply append_ne_empty_left)
          | otherVal tn r => repeat (first | decide | apply append_ne_empty_left)

theorem stepEvent_log (st : ReducerState) (e : Event) :
    (stepEvent st e).log = st.log ++ [formatLogEntry e] := by
  unfold stepEvent
  simp only [ne_eq, formatLogEntry_ne_empty e, not_false_eq_true, if_true]
  split <;> split <;> rfl

theorem finalizeRun_log (st : ReducerState) : (finalizeRun st).log = st.log := by
  unfold finalizeRun
  by_cases hA : (strIn "LGTM received" st.stopReason && st.prevAgent.isSome) = true
  · simp only [hA, if_true]
    cases hp : st.prevAgent <;> simp [hp]
  · simp only [hA, if_false]
    by_cases hB : st.lastAgent.isSome = true
    · simp only [hB, if_true]
      cases hl : st.lastAgent <;> simp [hl]
    · simp [hB]

theorem runLoop_log (st : ReducerState) (evs : List Event) :
    (runLoop st evs).log = st.log ++ (consumedEvents evs).map formatLogEntry := by
  induction evs generalizing st with
  | nil => simp [runLoop, consumedEvents]
  | cons e rest ih =>
      unfold runLoop consumedEvents
      by_cases hterm : isTerminal e = true
      · simp [hterm, stepEvent_log]
      · simp [hterm, stepEvent_log, ih]

theorem consumedEvents_eq (events : List Event) :
    consumedEvents events =
      events.takeWhile (fun e => !(isTerminal e)) ++
        (events.dropWhile (fun e => !(isTerminal e))).take 1 := by
  induction events with
  | nil => rfl
  | cons e rest ih =>
      by_cases hterm : isTerminal e = true
      · simp [consumedEvents, List.takeWhile_cons, List.dropWhile_cons, hterm]
      · simp [consumedEvents, List.takeWhile_cons, List.dropWhile_cons, hterm, ih]

/-- Claim C7: the produced log is exactly the consumed prefix of the input
events, formatted in input order, one line per consumed event (malformed ones
included); consumption stops at — and includes — the first terminal event. -/
theorem stream_log_order (events : List Event) :
    (run_autogen_stream events).log = (consumedEvents events).map formatLogEntry ∧
    consumedEvents events =
      events.takeWhile (fun e => !(isTerminal e)) ++
        (events.dropWhile (fun e => !(isTerminal e))).take 1 ∧
    (run_autogen_stream events).log.length = (consumedEvents events).length := by
  have h1 : (run_autogen_stream events).log = (consumedEvents events).map formatLogEntry := by
    unfold run_autogen_stream
    rw [finalizeRun_log, runLoop_log]
    simp [initialReducerState]
  exact ⟨h1, consumedEvents_eq events, by rw [h1]; simp⟩

/-- The final-answer selection rule in the words of the specification, over
the loop's final state: the previous agent message when the stop reason says
"LGTM received" and that slot is populated, else the most recent agent
message when populated, else the fixed placeholder with source "System" when
a terminal event was seen and "Unknown" otherwise. Stated for comparison with
`finalizeRun`. -/
def specFinalAnswerRule (st : ReducerState) : String × String :=
  match strIn "LGTM received" st.stopReason, st.prevAgent, st.lastAgent with
  | true, some m, _ => (finalTextOfMsg m, finalSourceOfMsg m)
  | _, _, some m => (finalTextOfMsg m, finalSourceOfMsg m)
  | _, _, none => ("[No agent response recorded before termination]",
      if st.isTaskResult then "System" else "Unknown")

theorem finalizeRun_spec (st : ReducerState) :
    ((finalizeRun st).final_text, (finalizeRun st).final_source)
      = specFinalAnswerRule st := by
  unfold finalizeRun specFinalAnswerRule
  by_cases hl : strIn "LGTM received" st.stopReason = true
  · cases hp : st.prevAgent with
    | some p => simp [hl, hp]
    | none =>
        cases hla : st.lastAgent with
        | some l => simp [hl, hp, hla]
        | none => simp [hl, hp, hla]
  · cases hla : st.lastAgent with
    | some l => simp [hl, hla]
    | none => simp [hl, hla]

/-- The specification's worked stream-reduction scenario. -/
def specScenarioEvents : List Event :=
  [ { source := some "dev", content := some (ContentVal.strVal "draft v1"),
      typeName := "TextMessage" },
    { source := some "review", content := some (ContentVal.strVal "fix X"),
      typeName := "TextMessage" },
    { source := some "dev", content := some (ContentVal.strVal "draft v2"),
      typeName := "TextMessage" },
    { source := some "review", content := some (ContentVal.strVal " LGTM "),
      typeName := "TextMessage" },
    { stop_reason := some (some "LGTM received from review_agent."),
      typeName := "TaskResult" } ]

/-- Claim C2: the final answer is selected from the loop's final state by the
specification's rule — previous agent message when the stop reason contains
"LGTM received" and that slot is populated, else the current agent message
when populated, else the fixed placeholder with source "System" when a
terminal event was seen and "Unknown" otherwise; on the specification's
worked scenario this yields "draft v2" from "dev". -/
theorem stream_final_selection (events : List Event) :
    ((run_autogen_stream events).final_text, (run_autogen_stream events).final_source)
      = specFinalAnswerRule (runLoop initialReducerState events) ∧
    (run_autogen_stream specScenarioEvents).final_text = "draft v2" ∧
    (run_autogen_stream specScenarioEvents).final_source = "dev" ∧
    (run_autogen_stream specScenarioEvents).stop_reason
      = "LGTM received from review_agent." := by
  refine ⟨finalizeRun_spec _, ?_, ?_, ?_⟩ <;> rfl

/-- An agent event whose `content` attribute holds a non-string value (a
Python list), as the stream can carry. -/
def c4NonTextualEvent : Event :=
  { source := some "dev", content := some (ContentVal.otherVal "list" "[1, 2]"),
    typeName := "TextMessage" }

/-- A terminal run-result event with a non-LGTM stop reason. -/
def c4TerminalEvent : Event :=
  { stop_reason := some (some "Maximum number of messages 20 reached, current message count: 20"),
    typeName := "TaskResult" }

/-- Claim C4 counterexample: an agent event carrying non-textual content IS
inserted into the two-slot buffer and IS selected as the final answer (its
`str()` rendering becomes the final text), contrary to the claim that such
events are excluded. -/
theorem stream_nontextual_inserted_cex :
    (runLoop initialReducerState [c4NonTextualEvent]).lastAgent = some c4NonTextualEvent ∧
    (run_autogen_stream [c4NonTextualEvent, c4TerminalEvent]).final_text = "[1, 2]" ∧
    (run_autogen_stream [c4NonTextualEvent, c4TerminalEvent]).final_source = "dev" ∧
    (run_autogen_stream [c4NonTextualEvent, c4TerminalEvent]).final_text ≠
      "[No agent response recorded before termination]" :=
  ⟨rfl, rfl, rfl, by decide⟩

/-- Claim C4 (amended): a consumed non-terminal event that lacks a `content`
attribute altogether, or whose source identity is one of the non-agent
identities, is logged (exactly one line) but not inserted into the two-slot
buffer — whereas an event with a `content` attribute of any value from an
agent source is inserted. -/
theorem stream_no_content_not_inserted (st : ReducerState) (e : Event)
    (h1 : e.stop_reason = none)
    (h2 : e.content = none ∨ sourceNameOf e ∈ nonAgentSources) :
    (stepEvent st e).log = st.log ++ [formatLogEntry e] ∧
    (stepEvent st e).lastAgent = st.lastAgent ∧
    (stepEvent st e).prevAgent = st.prevAgent := by
  have hterm : isTerminal e = false := by simp [isTerminal, h1]
  have hprop : ¬(e.content.isSome = true ∧ sourceNameOf e ∉ nonAgentSources) := by
    rintro ⟨hc, hs⟩
    rcases h2 with h2c | h2s
    · rw [h2c] at hc
      simp at hc
    · exact hs h2s
  refine ⟨stepEvent_log st e, ?_, ?_⟩ <;>
    · unfold stepEvent
      simp [hterm, hprop, formatLogEntry_ne_empty e]

/-- A content-attribute-free event, as a streamed model event can be. -/
def noContentEvent : Event := { typeName := "UserInputRequestedEvent" }

theorem stream_no_content_not_inserted_witness :
    (stepEvent initialReducerState noContentEvent).log
        = initialReducerState.log ++ [formatLogEntry noContentEvent] ∧
    (stepEvent initialReducerState noContentEvent).lastAgent
        = initialReducerState.lastAgent ∧
    (stepEvent initialReducerState noContentEvent).prevAgent
        = initialReducerState.prevAgent :=
  stream_no_content_not_inserted initialReducerState noContentEvent rfl (Or.inl rfl)

theorem runLoopFallible_none (st : ReducerState) (evs : List Event) :
    runLoopFallible st evs none = Except.ok (runLoop st evs) := by
  induction evs generalizing st with
  | nil => rfl
  | cons e rest ih =>
      unfold runLoopFallible runLoop
      by_cases hterm : isTerminal e = true <;> simp [hterm, ih]

theorem runLoopFallible_error (st : ReducerState) (evs : List Event) (ex : PyExc)
    (h : evs.all (fun e => !(isTerminal e)) = true) :
    runLoopFallible st evs (some ex) = Except.error ex := by
  induction evs generalizing st with
  | nil => rfl
  | cons e rest ih =>
      simp only [List.all_cons, Bool.and_eq_true] at h
      unfold runLoopFallible
      have hterm : isTerminal e = false := by
        rcases h with ⟨h1, _⟩
        simpa using h1
      simp [hterm, ih _ h.2]

/-- "dev" draft message used by the failure scenarios. -/
def c5DraftEvent : Event :=
  { source := some "dev", content := some (ContentVal.strVal "draft v1"),
    typeName := "TextMessage" }

/-- An exception raised by the stream mid-run. -/
def c5Exc : PyExc := { excType := "RuntimeError", msg := "model backend unavailable" }

/-- Claim C5 counterexample: one log entry is accumulated by the reducer
before the stream raises, yet after the caller handles the failure the
stored log list is empty and the log tab shows only the failure warning —
the partial entries are not retained for display. -/
theorem partial_log_discarded_cex :
    (stepEvent initialReducerState c5DraftEvent).log ≠ [] ∧
    runAutogenStreamFallible [c5DraftEvent] (some c5Exc) = Except.error c5Exc ∧
    (runButtonHandler [c5DraftEvent] (some c5Exc)).conversation_log_list = [] ∧
    (runButtonHandler [c5DraftEvent] (some c5Exc)).last_run_error
        = some (errorMessageOf c5Exc) ∧
    tab2Display true (runButtonHandler [c5DraftEvent] (some c5Exc))
        = LogDisplay.failedWarning (errorMessageOf c5Exc) :=
  ⟨by decide, rfl, rfl, rfl, rfl⟩

/-- Claim C5 (amended): when the stream raises before any terminal event,
the reducer's locally accumulated log entries are abandoned with the
propagating exception — the caller's cleared log list stays empty and the
log tab shows the failure warning, not the accumulated entries. -/
theorem partial_log_discarded (events : List Event) (ex : PyExc)
    (h : events.all (fun e => !(isTerminal e)) = true) :
    runAutogenStreamFallible events (some ex) = Except.error ex ∧
    (runButtonHandler events (some ex)).conversation_log_list = [] ∧
    (runButtonHandler events (some ex)).last_run_error = some (errorMessageOf ex) ∧
    tab2Display true (runButtonHandler events (some ex))
        = LogDisplay.failedWarning (errorMessageOf ex) := by
  have hprop : runAutogenStreamFallible events (some ex) = Except.error ex := by
    unfold runAutogenStreamFallible
    rw [runLoopFallible_error _ _ _ h]
    rfl
  refine ⟨hprop, ?_, ?_, ?_⟩ <;> simp [runButtonHandler, hprop, tab2Display]

theorem partial_log_discarded_witness :
    runAutogenStreamFallible [c5DraftEvent] (some c5Exc) = Except.error c5Exc ∧
    (runButtonHandler [c5DraftEvent] (some c5Exc)).conversation_log_list = [] ∧
    (runButtonHandler [c5DraftEvent] (some c5Exc)).last_run_error
        = some (errorMessageOf c5Exc) ∧
    tab2Display true (runButtonHandler [c5DraftEvent] (some c5Exc))
        = LogDisplay.failedWarning (errorMessageOf c5Exc) :=
  partial_log_discarded [c5DraftEvent] c5Exc rfl

/-- A terminal run-result event with no preceding agent output. -/
def resultOnlyEvent : Event :=
  { stop_reason := some (some "Maximum number of messages 20 reached, current message count: 20"),
    typeName := "TaskResult" }

/-- An exception from the model transport. -/
def c8Exc : PyExc := { excType := "ConnectionError", msg := "transport closed" }

/-- Claim C8: an exception raised while iterating the stream propagates out
of the reducer unchanged; the caller catches it and records a failed state
(the handler still returns a session state), and that state is distinct from
a normal run that completed with no agent output, which carries the
placeholder text and no error. -/
theorem run_error_propagates (events : List Event) (ex : PyExc)
    (h : events.all (fun e => !(isTerminal e)) = true) :
    runAutogenStreamFallible events (some ex) = Except.error ex ∧
    (runButtonHandler events (some ex)).last_run_error = some (errorMessageOf ex) ∧
    (∀ evs2 : List Event, (runButtonHandler evs2 none).last_run_error = none) ∧
    (runButtonHandler events (some ex)).final_response_text = "" ∧
    (runButtonHandler [resultOnlyEvent] none).final_response_text
        = "[No agent response recorded before termination]" ∧
    (runButtonHandler [resultOnlyEvent] none).last_run_error = none := by
  have hprop : runAutogenStreamFallible events (some ex) = Except.error ex := by
    unfold runAutogenStreamFallible
    rw [runLoopFallible_error _ _ _ h]
    rfl
  refine ⟨hprop, ?_, ?_, ?_, rfl, rfl⟩
  · simp [runButtonHandler, hprop]
  · intro evs2
    simp [runButtonHandler, runAutogenStreamFallible, runLoopFallible_none, Except.map]
  · simp [runButtonHandler, hprop]

theorem run_error_propagates_witness :
    runAutogenStreamFallible [] (some c8Exc) = Except.error c8Exc ∧
    (runButtonHandler [] (some c8Exc)).last_run_error = some (errorMessageOf c8Exc) ∧
    (∀ evs2 : List Event, (runButtonHandler evs2 none).last_run_error = none) ∧
    (runButtonHandler [] (some c8Exc)).final_response_text = "" ∧
    (runButtonHandler [resultOnlyEvent] none).final_response_text
        = "[No agent response recorded before termination]" ∧
    (runButtonHandler [resultOnlyEvent] none).last_run_error = none :=
  run_error_propagates [] c8Exc rfl

/-! ## `autogen_setup.py`: configuration loading and API-key resolution.
The file read, YAML parse and pydantic validation are external calls; they
enter as the outcome values they can produce. -/

/-- `sys.exit(code)` together with the diagnostics printed before it. -/
structure ExitCall where
  code : Nat
  printed : List String
deriving DecidableEq

/-- Outcome of `open(path)` plus `yaml.safe_load`: missing file, a YAML
parse error, or a parsed document (`loaded none` = the file was empty, i.e.
`safe_load` returned `None`). -/
inductive LoadOutcome (Raw : Type) where
  | fileNotFound
  | yamlError (msg : String)
  | loaded (raw : Option Raw)

/-- One entry of pydantic's `e.errors()`: its `loc` path and its `msg`. -/
structure ValidationErrorItem where
  loc : List String
  msg : String
deriving DecidableEq

/-- The per-error line `load_config` prints: two spaces, "- Field ", the
`loc` components joined by " -> " in single quotes, a colon, the message. -/
def fieldPathLine (er : ValidationErrorItem) : String :=
  "  - Field '" ++ String.intercalate " -> " er.loc ++ "': " ++ er.msg

/-- The exit taken for a missing configuration file. -/
def exitFileNotFound (path : String) : ExitCall :=
  { code := 1,
    printed := ["Error: Configuration file '" ++ path ++ "' not found."] }

/-- The exit taken for a YAML parse error. -/
def exitYamlError (path m : String) : ExitCall :=
  { code := 1,
    printed := ["Error parsing YAML file '" ++ path ++ "': " ++ m] }

/-- The exit taken for an empty configuration file. -/
def exitEmptyFile (path : String) : ExitCall :=
  { code := 1,
    printed := ["Error: Configuration file '" ++ path ++ "' is empty."] }

/-- The exit taken for a schema-validation failure: the header line, then
one field-path line per validation error. -/
def exitValidation (path : String) (errs : List ValidationErrorItem) : ExitCall :=
  { code := 1,
    printed := ("Error: Configuration validation failed for '" ++ path ++ "':")
      :: errs.map fieldPathLine }

/-- `load_config`, with the external file/YAML outcome and the pydantic
constructor (`AppConfig(**raw_configs)`) passed as values: the validated
configuration, or the `sys.exit(1)` call with its printed diagnostics. -/
def load_config {Raw Cfg : Type} (path : String) (outcome : LoadOutcome Raw)
    (validate : Raw → Except (List ValidationErrorItem) Cfg) : Except ExitCall Cfg :=
  match outcome with
  | LoadOutcome.fileNotFound => Except.error (exitFileNotFound path)
  | LoadOutcome.yamlError m => Except.error (exitYamlError path m)
  | LoadOutcome.loaded none => Except.error (exitEmptyFile path)
  | LoadOutcome.loaded (some raw) =>
      match validate raw with
      | Except.ok cfg => Except.ok cfg
      | Except.error errs => Except.error (exitValidation path errs)

/-- Claim C9: every failing outcome of `load_config` — missing file, empty
file, malformed YAML, schema-validation failure — exits with the non-zero
status 1 after printing at least one diagnostic; on a validation failure
each error is reported on a line carrying its field path and message; a
valid file returns the validated configuration. -/
theorem load_config_outcomes {Raw Cfg : Type} (path : String)
    (outcome : LoadOutcome Raw)
    (validate : Raw → Except (List ValidationErrorItem) Cfg) :
    ((outcome = LoadOutcome.fileNotFound ∨ (∃ m, outcome = LoadOutcome.yamlError m) ∨
        outcome = LoadOutcome.loaded none ∨
        (∃ raw errs, outcome = LoadOutcome.loaded (some raw) ∧
          validate raw = Except.error errs)) →
      ∃ ex, load_config path outcome validate = Except.error ex ∧
        ex.code ≠ 0 ∧ ex.printed ≠ []) ∧
    (∀ raw errs, outcome = LoadOutcome.loaded (some raw) →
      validate raw = Except.error errs →
      ∃ ex, load_config path outcome validate = Except.error ex ∧ ex.code ≠ 0 ∧
        ∀ er ∈ errs, fieldPathLine er ∈ ex.printed) ∧
    (∀ raw cfg, outcome = LoadOutcome.loaded (some raw) →
      validate raw = Except.ok cfg →
      load_config path outcome validate = Except.ok cfg) := by
  refine ⟨?_, ?_, ?_⟩
  · rintro (h | ⟨m, h⟩ | h | ⟨raw, errs, h, hv⟩) <;> subst h
    · exact ⟨exitFileNotFound path, rfl, by simp [exitFileNotFound], by simp [exitFileNotFound]⟩
    · exact ⟨exitYamlError path m, rfl, by simp [exitYamlError], by simp [exitYamlError]⟩
    · exact ⟨exitEmptyFile path, rfl, by simp [exitEmptyFile], by simp [exitEmptyFile]⟩
    · refine ⟨exitValidation path errs, by simp [load_config, hv], by simp [exitValidation], ?_⟩
      simp [exitValidation]
  · rintro raw errs h hv
    subst h
    refine ⟨exitValidation path errs, by simp [load_config, hv], by simp [exitValidation], ?_⟩
    intro er her
    simp only [exitValidation, List.mem_cons, List.mem_map]
    exact Or.inr ⟨er, her, rfl⟩
  · rintro raw cfg h hv
    subst h
    simp [load_config, hv]

/-- Python truthiness of `os.environ.get(...)`: `None` and `""` are falsy. -/
def pyTruthy : Option String → Bool
  | none => false
  | some s => s != ""

/-- The environment-variable name `f"{agent_key.upper()}_API_KEY"`. -/
def envVarNameOf (agent_key : String) : String := agent_key.toUpper ++ "_API_KEY"

/-- The exit taken for a missing or falsy API-key variable: the printed
diagnostic names both the agent key and the environment variable. -/
def exitMissingKey (agent_key : String) : ExitCall :=
  { code := 1,
    printed := ["Error: API Key for '" ++ agent_key
      ++ "' not found. Set the environment variable '" ++ envVarNameOf agent_key ++ "'."] }

/-- The environment-variable guard of `make_model_client_pydantic`, with the
process environment passed as a lookup function: the API key that reaches
the client constructor, or the `sys.exit(1)` call taken before any
construction is attempted. -/
def make_model_client_pydantic (env : String → Option String) (agent_key : String) :
    Except ExitCall String :=
  let env_var_name := envVarNameOf agent_key
  let api_key_from_env := env env_var_name
  if pyTruthy api_key_from_env then Except.ok (api_key_from_env.getD "")
  else Except.error (exitMissingKey agent_key)

/-- Claim C10: an API-key environment variable set to the empty string is
treated exactly like a missing one — in both cases the guard exits with
status 1 printing the diagnostic naming the variable, before any client
construction, and the result is identical to that under any environment in
which the variable is absent. -/
theorem api_key_empty_like_missing (env : String → Option String) (agent_key : String)
    (h : env (envVarNameOf agent_key) = none ∨ env (envVarNameOf agent_key) = some "") :
    make_model_client_pydantic env agent_key = Except.error (exitMissingKey agent_key) ∧
    (exitMissingKey agent_key).code ≠ 0 ∧
    (exitMissingKey agent_key).printed = ["Error: API Key for '" ++ agent_key
      ++ "' not found. Set the environment variable '" ++ envVarNameOf agent_key ++ "'."] ∧
    (∀ env2 : String → Option String, env2 (envVarNameOf agent_key) = none →
      make_model_client_pydantic env agent_key
        = make_model_client_pydantic env2 agent_key) := by
  have hx : make_model_client_pydantic env agent_key
      = Except.error (exitMissingKey agent_key) := by
    unfold make_model_client_pydantic
    rcases h with h | h <;> simp [h, pyTruthy]
  refine ⟨hx, by simp [exitMissingKey], rfl, ?_⟩
  intro env2 h2
  rw [hx]
  unfold make_model_client_pydantic
  simp [h2, pyTruthy]

theorem api_key_empty_like_missing_witness :
    make_model_client_pydantic (fun _ => some "") "dev_agent"
      = Except.error (exitMissingKey "dev_agent") ∧
    (exitMissingKey "dev_agent").code ≠ 0 ∧
    (exitMissingKey "dev_agent").printed = ["Error: API Key for '" ++ "dev_agent"
      ++ "' not found. Set the environment variable '" ++ envVarNameOf "dev_agent" ++ "'."] ∧
    (∀ env2 : String → Option String, env2 (envVarNameOf "dev_agent") = none →
      make_model_client_pydantic (fun _ => some "") "dev_agent"
        = make_model_client_pydantic env2 "dev_agent") :=
  api_key_empty_like_missing (fun _ => some "") "dev_agent" (Or.inr rfl)
